import Mathlib

/-!
Shallow embedding of `src/dig/auggraph/runner_discriminator.py`
(class `RunnerDiscriminator`) and proofs about it.

Python floats on the score/accuracy path are modelled as exact
rationals (`ℚ`); Python ints as `ℤ`/`ℕ` with Python semantics made
explicit where they differ from `ℕ` (e.g. `max_num_epochs - num_save`
may be negative, so it is computed in `ℤ`).
-/

namespace RunnerDiscriminator

/-- A graph of the TU dataset as the runner sees it: a label and a
node-feature matrix `x` (one row per node).  Corresponds to the
`torch_geometric` data objects handled in `runner_discriminator.py`. -/
structure Graph where
  label : ℕ
  x : List (List ℚ)
deriving DecidableEq, Repr

/-- An (anchor, positive, negative) item as yielded by the data loader
in `_train_epoch`/`test` (`anchor_data, pos_data, neg_data = data_batch`). -/
structure Triple where
  anchor : Graph
  pos : Graph
  neg : Graph
deriving DecidableEq, Repr

/-- The discriminator model reduced to its observable behaviour on this
code path: a scalar similarity score for a pair of graphs
(`self.model(a, b).view(-1)` per element). -/
abbrev Model := Graph → Graph → ℚ

/-- A `DataLoader` over a triple dataset: the underlying dataset
(`loader.dataset`) and the batches the iteration yields.  Shuffling means
the concatenation of the batches is a permutation of the dataset. -/
structure Loader where
  dataset : List Triple
  batches : List (List Triple)
deriving Repr

/-- The three counters accumulated in `test`
(`num_correct, num_pos_correct, num_neg_correct = 0, 0, 0`). -/
structure TestCounts where
  num_correct : ℕ
  num_pos_correct : ℕ
  num_neg_correct : ℕ
deriving DecidableEq, Repr

/-- One iteration of the `for data_batch in loader` loop of `test`:
`pred = (output.view(-1) > 0.5).long(); num_correct += pred.sum()` for
the anchor-positive scores, then the same with `< 0.5` for the
anchor-negative scores. -/
def testBatchStep (model : Model) (c : TestCounts) (batch : List Triple) : TestCounts :=
  let posPredSum := batch.countP (fun t => decide ((1 : ℚ)/2 < model t.anchor t.pos))
  let negPredSum := batch.countP (fun t => decide (model t.anchor t.neg < (1 : ℚ)/2))
  { num_correct := c.num_correct + posPredSum + negPredSum
    num_pos_correct := c.num_pos_correct + posPredSum
    num_neg_correct := c.num_neg_correct + negPredSum }

/-- The counter loop of `test` over all batches of the loader. -/
def testFold (model : Model) (batches : List (List Triple)) : TestCounts :=
  batches.foldl (testBatchStep model) ⟨0, 0, 0⟩

/-- `RunnerDiscriminator.test` (lines 62-81): returns
`num_correct / (2 * len(loader.dataset))`,
`num_pos_correct / len(loader.dataset)`,
`num_neg_correct / len(loader.dataset)`. -/
def test (model : Model) (loader : Loader) : ℚ × ℚ × ℚ :=
  let c := testFold model loader.batches
  (c.num_correct / (2 * loader.dataset.length),
   c.num_pos_correct / loader.dataset.length,
   c.num_neg_correct / loader.dataset.length)

theorem testFold_num_correct_eq (model : Model) (batches : List (List Triple)) :
    (testFold model batches).num_correct =
      (testFold model batches).num_pos_correct + (testFold model batches).num_neg_correct := by
  suffices h : ∀ c : TestCounts,
      (batches.foldl (testBatchStep model) c).num_correct + c.num_pos_correct + c.num_neg_correct
        = (batches.foldl (testBatchStep model) c).num_pos_correct
          + (batches.foldl (testBatchStep model) c).num_neg_correct + c.num_correct by
    have := h ⟨0, 0, 0⟩
    simpa [testFold] using this
  induction batches with
  | nil => intro c; simp; omega
  | cons b bs ih =>
    intro c
    simp only [List.foldl_cons]
    have := ih (testBatchStep model c b)
    simp only [testBatchStep] at this ⊢
    omega

theorem testFold_pos_eq (model : Model) (batches : List (List Triple)) :
    (testFold model batches).num_pos_correct =
      batches.flatten.countP (fun t => decide ((1 : ℚ)/2 < model t.anchor t.pos)) := by
  suffices h : ∀ c : TestCounts,
      (batches.foldl (testBatchStep model) c).num_pos_correct =
        c.num_pos_correct
          + batches.flatten.countP (fun t => decide ((1 : ℚ)/2 < model t.anchor t.pos)) by
    simpa [testFold] using h ⟨0, 0, 0⟩
  induction batches with
  | nil => intro c; simp
  | cons b bs ih =>
    intro c
    simp only [List.foldl_cons, List.flatten_cons, List.countP_append]
    rw [ih]
    simp only [testBatchStep]
    omega

theorem testFold_neg_eq (model : Model) (batches : List (List Triple)) :
    (testFold model batches).num_neg_correct =
      batches.flatten.countP (fun t => decide (model t.anchor t.neg < (1 : ℚ)/2)) := by
  suffices h : ∀ c : TestCounts,
      (batches.foldl (testBatchStep model) c).num_neg_correct =
        c.num_neg_correct
          + batches.flatten.countP (fun t => decide (model t.anchor t.neg < (1 : ℚ)/2)) by
    simpa [testFold] using h ⟨0, 0, 0⟩
  induction batches with
  | nil => intro c; simp
  | cons b bs ih =>
    intro c
    simp only [List.foldl_cons, List.flatten_cons, List.countP_append]
    rw [ih]
    simp only [testBatchStep]
    omega

/-- Count of anchor-positive pairs of a triple list whose score is
strictly greater than `0.5`. -/
def posCorrectCount (model : Model) (l : List Triple) : ℕ :=
  l.countP (fun t => decide ((1 : ℚ)/2 < model t.anchor t.pos))

/-- Count of anchor-negative pairs of a triple list whose score is
strictly less than `0.5`. -/
def negCorrectCount (model : Model) (l : List Triple) : ℕ :=
  l.countP (fun t => decide (model t.anchor t.neg < (1 : ℚ)/2))

/- Concrete graphs used to evaluate the embedding on small inputs:
four graphs with labels [A, A, B, B] (A = 0, B = 1). -/

def g0 : Graph := ⟨0, [[1]]⟩

def g1 : Graph := ⟨0, [[1], [1]]⟩

def g2 : Graph := ⟨1, [[1]]⟩

def g3 : Graph := ⟨1, [[1], [1], [1]]⟩

/-- A model returning score 1.0 for same-label pairs and 0.0 for
different-label pairs (the perfect classifier of the toy scenario). -/
def labelModel : Model := fun a b => if a.label = b.label then 1 else 0

/-- A model returning exactly 0.5 on every pair. -/
def halfModel : Model := fun _ _ => (1 : ℚ)/2

/-- A validation triple set over `[g0, g1, g2, g3]` satisfying the
`TripleSet` contract (positive shares the anchor label and differs from
the anchor, negative has a different label), batched in twos. -/
def toyLoader : Loader :=
  { dataset := [⟨g0, g1, g2⟩, ⟨g1, g0, g3⟩, ⟨g2, g3, g0⟩, ⟨g3, g2, g1⟩]
    batches := [[⟨g0, g1, g2⟩, ⟨g1, g0, g3⟩], [⟨g2, g3, g0⟩, ⟨g3, g2, g1⟩]] }

/-- C2: `test` returns
`((#pos-scores > 0.5) + (#neg-scores < 0.5)) / (2 * N)` as overall
accuracy and the positive/negative correct counts each divided by `N`
(not `2 * N`), where `N` is the validation set size. -/
theorem test_accuracy_formula (model : Model) (loader : Loader)
    (hperm : loader.batches.flatten.Perm loader.dataset) :
    test model loader =
      (((posCorrectCount model loader.dataset
          + negCorrectCount model loader.dataset : ℕ) : ℚ)
            / (2 * loader.dataset.length),
       ((posCorrectCount model loader.dataset : ℕ) : ℚ) / loader.dataset.length,
       ((negCorrectCount model loader.dataset : ℕ) : ℚ) / loader.dataset.length) := by
  have hpos := testFold_pos_eq model loader.batches
  have hneg := testFold_neg_eq model loader.batches
  have hc := testFold_num_correct_eq model loader.batches
  rw [hperm.countP_eq] at hpos hneg
  simp only [test, hc, hpos, hneg, posCorrectCount, negCorrectCount]

/-- Witness for C2 on the concrete toy loader and perfect-classifier model. -/
theorem test_accuracy_formula_witness :
    toyLoader.batches.flatten.Perm toyLoader.dataset ∧
    test labelModel toyLoader =
      (((posCorrectCount labelModel toyLoader.dataset
          + negCorrectCount labelModel toyLoader.dataset : ℕ) : ℚ)
            / (2 * toyLoader.dataset.length),
       ((posCorrectCount labelModel toyLoader.dataset : ℕ) : ℚ) / toyLoader.dataset.length,
       ((negCorrectCount labelModel toyLoader.dataset : ℕ) : ℚ) / toyLoader.dataset.length) :=
  ⟨by decide, test_accuracy_formula labelModel toyLoader (by decide)⟩

/-- C3: when the model outputs exactly 0.5 on every pair, neither the
strict `> 0.5` test nor the strict `< 0.5` test succeeds, so `test`
returns overall accuracy 0 on any non-empty validation set. -/
theorem test_half_scores_zero_accuracy (model : Model) (loader : Loader)
    (hmodel : ∀ a b, model a b = (1 : ℚ)/2) (_hne : loader.dataset ≠ []) :
    (test model loader).1 = 0 := by
  have hpos := testFold_pos_eq model loader.batches
  have hneg := testFold_neg_eq model loader.batches
  have hc := testFold_num_correct_eq model loader.batches
  have hp0 : loader.batches.flatten.countP
      (fun t => decide ((1 : ℚ)/2 < model t.anchor t.pos)) = 0 := by
    apply List.countP_eq_zero.mpr
    intro t _
    simp [hmodel]
  have hn0 : loader.batches.flatten.countP
      (fun t => decide (model t.anchor t.neg < (1 : ℚ)/2)) = 0 := by
    apply List.countP_eq_zero.mpr
    intro t _
    simp [hmodel]
  show ((testFold model loader.batches).num_correct : ℚ)
      / (2 * loader.dataset.length) = 0
  rw [hc, hpos, hneg, hp0, hn0]
  norm_num

/-- Witness for C3 on the concrete toy loader and the constant-0.5 model. -/
theorem test_half_scores_zero_accuracy_witness :
    ((∀ a b, halfModel a b = (1 : ℚ)/2) ∧ toyLoader.dataset ≠ []) ∧
    (test halfModel toyLoader).1 = 0 :=
  ⟨⟨fun _ _ => rfl, by decide⟩,
   test_half_scores_zero_accuracy halfModel toyLoader (fun _ _ => rfl) (by decide)⟩

/-- C10: the overall correct counter always equals the sum of the
positive and negative correct counters, so on a non-empty validation set
the overall accuracy returned by `test` is the arithmetic mean of the
returned positive and negative accuracies. -/
theorem test_overall_is_mean (model : Model) (loader : Loader)
    (_hne : 0 < loader.dataset.length) :
    (testFold model loader.batches).num_correct =
        (testFold model loader.batches).num_pos_correct
          + (testFold model loader.batches).num_neg_correct ∧
    (test model loader).1 = ((test model loader).2.1 + (test model loader).2.2) / 2 := by
  refine ⟨testFold_num_correct_eq model loader.batches, ?_⟩
  have hc := testFold_num_correct_eq model loader.batches
  show ((testFold model loader.batches).num_correct : ℚ) / (2 * loader.dataset.length)
      = (((testFold model loader.batches).num_pos_correct : ℚ) / loader.dataset.length
          + ((testFold model loader.batches).num_neg_correct : ℚ)
            / loader.dataset.length) / 2
  rw [hc, div_add_div_same, div_div]
  push_cast
  ring_nf

/-- Witness for C10 on the concrete toy loader. -/
theorem test_overall_is_mean_witness :
    0 < toyLoader.dataset.length ∧
    ((testFold labelModel toyLoader.batches).num_correct =
        (testFold labelModel toyLoader.batches).num_pos_correct
          + (testFold labelModel toyLoader.batches).num_neg_correct ∧
     (test labelModel toyLoader).1 =
        ((test labelModel toyLoader).2.1 + (test labelModel toyLoader).2.2) / 2) :=
  ⟨by decide, test_overall_is_mean labelModel toyLoader (by decide)⟩

theorem toy_testFold_eq : testFold labelModel toyLoader.batches = ⟨8, 4, 4⟩ := by
  norm_num [testFold, testBatchStep, toyLoader, labelModel, g0, g1, g2, g3,
    List.countP_cons, List.countP_nil]

/-- C4 counterexample: on the toy validation set of 4 graphs with labels
[A, A, B, B] and the perfect classifier, the returned positive accuracy
is 1, not the validation-set size 4 as the claim states. -/
theorem toy_positive_accuracy_ne_size :
    (test labelModel toyLoader).2.1 = 1 ∧
    ((toyLoader.dataset.length : ℚ)) = 4 ∧
    (test labelModel toyLoader).2.1 ≠ ((toyLoader.dataset.length : ℚ)) := by
  refine ⟨?_, by norm_num [toyLoader], ?_⟩
  · simp only [test, toy_testFold_eq]
    norm_num [toyLoader]
  · simp only [test, toy_testFold_eq]
    norm_num [toyLoader]

/-- C4 amended: on the toy validation set of 4 graphs with labels
[A, A, B, B] and the perfect classifier, `test` returns overall accuracy
1.0 and positive and negative accuracy each 1.0 (correct count divided
by the validation-set size). -/
theorem toy_accuracy_perfect :
    test labelModel toyLoader = (1, 1, 1) := by
  simp only [test, toy_testFold_eq]
  norm_num [toyLoader]

/- ------------------------------------------------------------------
Training loop: `_train_epoch` (lines 43-59) and the optimizer built on
line 105 of `train_test`.
------------------------------------------------------------------ -/

/-- `log` clamped below at -100, as `torch` does inside
`binary_cross_entropy`.  The logarithm itself is numerical-backend
behaviour, so it is passed in as a function `lg`. -/
def clampedLog (lg : ℚ → ℚ) (x : ℚ) : ℚ := max (lg x) (-100)

/-- `F.binary_cross_entropy(input, target)` with the default mean
reduction: the mean over paired elements of
`-(t * log x + (1 - t) * log (1 - x))`. -/
def binaryCrossEntropy (lg : ℚ → ℚ) (input target : List ℚ) : ℚ :=
  ((input.zip target).map
    (fun p => -(p.2 * clampedLog lg p.1 + (1 - p.2) * clampedLog lg (1 - p.1)))).sum
    / input.length

/-- `torch.ones_like(l)` for a flat score tensor. -/
def onesLike (l : List ℚ) : List ℚ := List.replicate l.length 1

/-- `torch.zeros_like(l)` for a flat score tensor. -/
def zerosLike (l : List ℚ) : List ℚ := List.replicate l.length 0

/-- The anchor-positive scores `self.model(anchor_data, pos_data).view(-1)`
over a batch. -/
def posOutputs (model : Model) (batch : List Triple) : List ℚ :=
  batch.map (fun t => model t.anchor t.pos)

/-- The anchor-negative scores `self.model(anchor_data, neg_data).view(-1)`
over a batch. -/
def negOutputs (model : Model) (batch : List Triple) : List ℚ :=
  batch.map (fun t => model t.anchor t.neg)

/-- The loss computed and backpropagated for one batch of `_train_epoch`
(lines 51-58): `loss = pos_loss + neg_loss` with
`pos_loss = F.binary_cross_entropy(pos_out, torch.ones_like(pos_out))`
and `neg_loss = F.binary_cross_entropy(neg_out, torch.zeros_like(neg_out))`. -/
def trainBatchLoss (lg : ℚ → ℚ) (model : Model) (batch : List Triple) : ℚ :=
  let pos_out := posOutputs model batch
  let pos_loss := binaryCrossEntropy lg pos_out (onesLike pos_out)
  let neg_out := negOutputs model batch
  let neg_loss := binaryCrossEntropy lg neg_out (zerosLike neg_out)
  pos_loss + neg_loss

inductive OptimizerKind
  | adam
deriving DecidableEq, Repr

structure OptimizerConfig where
  kind : OptimizerKind
  lr : ℚ
  weight_decay : ℚ
deriving DecidableEq, Repr

/-- The optimizer built on line 105 of `train_test`:
`torch.optim.Adam(self.model.parameters(), lr=self.conf['start_lr'], weight_decay=1e-4)`. -/
def trainOptimizer (start_lr : ℚ) : OptimizerConfig :=
  { kind := .adam, lr := start_lr, weight_decay := 1 / 10000 }

/-- Binary cross-entropy of a list of scores against one scalar target,
as the spec phrases the loss (target 1 for anchor-positive scores,
target 0 for anchor-negative scores). -/
def bceScalarTarget (lg : ℚ → ℚ) (input : List ℚ) (t : ℚ) : ℚ :=
  (input.map (fun x => -(t * clampedLog lg x + (1 - t) * clampedLog lg (1 - x)))).sum
    / input.length

theorem zip_replicate_length_map (c : ℚ) (l : List ℚ) :
    l.zip (List.replicate l.length c) = l.map (fun x => (x, c)) := by
  induction l with
  | nil => rfl
  | cons x xs ih => simp [List.replicate_succ, ih]

theorem binaryCrossEntropy_replicate (lg : ℚ → ℚ) (l : List ℚ) (c : ℚ) :
    binaryCrossEntropy lg l (List.replicate l.length c) = bceScalarTarget lg l c := by
  unfold binaryCrossEntropy bceScalarTarget
  rw [zip_replicate_length_map, List.map_map]
  rfl

/-- C7: the batch loss backpropagated by `_train_epoch` equals
binary cross-entropy of the anchor-positive scores against target 1 plus
binary cross-entropy of the anchor-negative scores against target 0, and
the optimizer used by `train_test` is Adam with a positive weight decay. -/
theorem train_loss_is_bce_and_adam (lg : ℚ → ℚ) (model : Model)
    (batch : List Triple) (start_lr : ℚ) :
    trainBatchLoss lg model batch =
      bceScalarTarget lg (posOutputs model batch) 1
        + bceScalarTarget lg (negOutputs model batch) 0 ∧
    (trainOptimizer start_lr).kind = .adam ∧
    0 < (trainOptimizer start_lr).weight_decay := by
  refine ⟨?_, rfl, by norm_num [trainOptimizer]⟩
  simp only [trainBatchLoss, onesLike, zerosLike, binaryCrossEntropy_replicate]

/- ------------------------------------------------------------------
Checkpointing and output paths: `train_test` (lines 84-116).
------------------------------------------------------------------ -/

/-- The guard on line 109 of `train_test`:
`model_dir_name is not None and epoch > self.conf['max_num_epochs'] - num_save`.
All three quantities are Python ints, so the subtraction is integer
subtraction and may be negative. -/
def checkpointCond (model_dir_name : Option String)
    (max_num_epochs num_save epoch : ℕ) : Bool :=
  model_dir_name.isSome && decide ((max_num_epochs : ℤ) - (num_save : ℤ) < (epoch : ℤ))

/-- The epochs at which `train_test` saves a checkpoint: the loop
`for epoch in range(self.conf['max_num_epochs'])` filtered by
`checkpointCond`. -/
def checkpointEpochs (model_dir_name : Option String)
    (max_num_epochs num_save : ℕ) : List ℕ :=
  (List.range max_num_epochs).filter
    (fun epoch => checkpointCond model_dir_name max_num_epochs num_save epoch)

/-- C1 counterexample: with the default configuration
(`max_num_epochs = 320`, `num_save = 30`, model type `'gmnet'`), epoch
290 lies in the claimed interval [320 - 30, 320) but no checkpoint is
written after it, because the guard uses a strict comparison. -/
theorem checkpoint_lower_bound_not_saved :
    (320 - 30 ≤ 290 ∧ 290 < 320) ∧
    290 ∉ checkpointEpochs (some "gmnet") 320 30 := by
  refine ⟨by norm_num, ?_⟩
  intro hmem
  rw [checkpointEpochs, List.mem_filter] at hmem
  have := hmem.2
  simp [checkpointCond] at this

/-- C1 amended: during `train_test` a checkpoint is written after epoch
`e` exactly when `maxEpochs - numSave < e < maxEpochs` (strict lower
bound, integer subtraction), i.e. for epochs in
[maxEpochs - numSave + 1, maxEpochs); epoch `maxEpochs - numSave` itself
gets no checkpoint, so at most `numSave - 1` checkpoints are written. -/
theorem checkpoint_iff_strict_interval (model_type : String)
    (max_num_epochs num_save e : ℕ) :
    e ∈ checkpointEpochs (some model_type) max_num_epochs num_save ↔
      ((max_num_epochs : ℤ) - (num_save : ℤ) < (e : ℤ) ∧ e < max_num_epochs) := by
  rw [checkpointEpochs, List.mem_filter, List.mem_range]
  simp only [checkpointCond, Option.isSome_some, Bool.true_and, decide_eq_true_eq]
  constructor
  · rintro ⟨h1, h2⟩; exact ⟨h2, h1⟩
  · rintro ⟨h1, h2⟩; exact ⟨h2, h1⟩

/-- Python `os.path.join(a, b)` in the only case occurring in
`train_test`: `a` non-empty without a trailing separator and `b`
relative. -/
def pathJoin (a b : String) : String := a ++ "/" ++ b

/-- Python `str.zfill(width)` for an unsigned digit string. -/
def zfill (width : ℕ) (s : String) : String :=
  if s.length < width then String.mk (List.replicate (width - s.length) '0') ++ s
  else s

/-- The checkpoint file path built on line 110 of `train_test`:
`os.path.join(model_dir, str(epoch).zfill(4) + '.pt')` with
`model_dir = os.path.join(os.path.join(out_root_path, data_name), model_type)`. -/
def checkpointPath (out_root_path data_name model_type : String) (epoch : ℕ) : String :=
  pathJoin (pathJoin (pathJoin out_root_path data_name) model_type)
    (zfill 4 (toString epoch) ++ ".pt")

/-- The spec's checkpoint path layout, with the extension amended to the
one the code actually uses:
`<outputRoot>/<datasetName>/<modelType>/<epoch-zero-padded>.pt`. -/
def specCheckpointPath (outputRoot datasetName modelType : String) (epoch : ℕ) : String :=
  outputRoot ++ "/" ++ datasetName ++ "/" ++ modelType ++ "/"
    ++ zfill 4 (toString epoch) ++ ".pt"

/-- C5 counterexample: the checkpoint written after epoch 291 of a run
on MUTAG goes to `results/MUTAG/gmnet/0291.pt`; its extension is `.pt`,
not `.ckpt` as the claim states. -/
theorem checkpoint_extension_is_pt :
    checkpointPath "results" "MUTAG" "gmnet" 291 = "results/MUTAG/gmnet/0291.pt" ∧
    checkpointPath "results" "MUTAG" "gmnet" 291 ≠ "results/MUTAG/gmnet/0291.ckpt" := by
  constructor <;> decide

/-- C5 amended: every checkpoint is written under
`<outputRoot>/<datasetName>/<modelType>/`, with the file name the epoch
index zero-padded to 4 digits followed by the extension `.pt`. -/
theorem checkpointPath_layout (out_root_path data_name model_type : String)
    (epoch : ℕ) :
    checkpointPath out_root_path data_name model_type epoch =
      specCheckpointPath out_root_path data_name model_type epoch := by
  simp [checkpointPath, specCheckpointPath, pathJoin, String.append_assoc]

/- ------------------------------------------------------------------
Dataset construction: `_get_dataset` (lines 28-36).
------------------------------------------------------------------ -/

/-- The per-graph transform configured for a triple set. -/
inductive Transform
  | identity
  | degreeTrans
deriving DecidableEq, Repr

/-- A triple-sampling view of a graph dataset.
Modelled from the spec: the `TripleSet` class lives in the `utils`
module, which is not among the sources here; per the spec it wraps a
base graph dataset with an optional transform, and item `i`'s anchor is
base graph `i` (each base graph is an anchor exactly once per pass). -/
structure TripleSet where
  base : List Graph
  transform : Transform
deriving DecidableEq, Repr

/-- The Python exceptions reachable from `_get_dataset` and the
configuration-level error the spec postulates. -/
inductive PyError where
  | attributeError (attr : String)
  | indexError (index : ℕ)
  | configurationError (msg : String)
deriving DecidableEq, Repr

def PyError.isConfigurationError : PyError → Bool
  | .configurationError _ => true
  | _ => false

/-- The fields `_get_dataset` stores on the runner: the two triple sets
and the `in_dim` entry derived on line 36. -/
structure DatasetConfig where
  train_set : TripleSet
  val_set : TripleSet
  in_dim : ℕ
deriving DecidableEq, Repr

/-- Line 36 of `_get_dataset`:
`self.conf['dis_param']['in_dim'] = self.train_set[0][0].x.shape[1]`.
The anchor of `train_set[0]` is the first base graph (`TripleSet`
contract, modelled from the spec); indexing an empty dataset raises. -/
def mkDatasetConfig (ts vs : TripleSet) : Except PyError DatasetConfig :=
  match ts.base with
  | [] => .error (.indexError 0)
  | g :: _ => .ok ⟨ts, vs, (g.x.headD []).length⟩

/-- `RunnerDiscriminator._get_dataset` (lines 28-36): dispatch on the
dataset name.  An unrecognized name takes neither branch, leaving
`self.train_set` unassigned, so the access `self.train_set[0]` on line
36 raises `AttributeError`. -/
def getDataset (dataset : List Graph) (data_name : String) :
    Except PyError DatasetConfig :=
  if data_name ∈ ["NCI1", "MUTAG", "PROTEINS", "NCI109"] then
    mkDatasetConfig ⟨dataset, .identity⟩ ⟨dataset, .identity⟩
  else if data_name ∈ ["COLLAB", "IMDB-BINARY"] then
    mkDatasetConfig ⟨dataset, .degreeTrans⟩ ⟨dataset, .degreeTrans⟩
  else
    .error (.attributeError "train_set")

/-- C6 counterexample: constructing the runner on the dataset name
`"DD"` (not one of the six recognized names) fails with
`AttributeError`, which is not a configuration-level error
distinguishing the unknown-dataset case. -/
theorem unknown_dataset_attribute_error :
    getDataset [g0, g1, g2, g3] "DD" = .error (.attributeError "train_set") ∧
    (PyError.attributeError "train_set").isConfigurationError = false :=
  ⟨rfl, rfl⟩

/-- C6 amended: constructing a runner with a dataset name outside the
two recognized lists fails, but with an `AttributeError` (`train_set`
was never assigned when line 36 reads it), not with a dedicated
configuration error. -/
theorem unknown_dataset_raises (dataset : List Graph) (data_name : String)
    (h1 : data_name ∉ (["NCI1", "MUTAG", "PROTEINS", "NCI109"] : List String))
    (h2 : data_name ∉ (["COLLAB", "IMDB-BINARY"] : List String)) :
    getDataset dataset data_name = .error (.attributeError "train_set") ∧
    (PyError.attributeError "train_set").isConfigurationError = false := by
  refine ⟨?_, rfl⟩
  rw [getDataset, if_neg h1, if_neg h2]

/-- Witness for C6 (amended) at the concrete name `"DD"`. -/
theorem unknown_dataset_raises_witness :
    ("DD" ∉ (["NCI1", "MUTAG", "PROTEINS", "NCI109"] : List String) ∧
     "DD" ∉ (["COLLAB", "IMDB-BINARY"] : List String)) ∧
    (getDataset [g0] "DD" = .error (.attributeError "train_set") ∧
     (PyError.attributeError "train_set").isConfigurationError = false) :=
  ⟨⟨by decide, by decide⟩, unknown_dataset_raises [g0] "DD" (by decide) (by decide)⟩

/-- C9: whenever `_get_dataset` succeeds, the training triple set and
the validation triple set wrap the same complete base dataset — there is
no held-out split, so validation runs on the very graphs used for
training. -/
theorem train_val_same_base (dataset : List Graph) (data_name : String)
    (cfg : DatasetConfig) (h : getDataset dataset data_name = Except.ok cfg) :
    cfg.train_set.base = dataset ∧ cfg.val_set.base = dataset := by
  rw [getDataset] at h
  split at h
  · cases dataset with
    | nil => simp [mkDatasetConfig] at h
    | cons g gs =>
      simp only [mkDatasetConfig, Except.ok.injEq] at h
      rw [← h]
      exact ⟨rfl, rfl⟩
  · split at h
    · cases dataset with
      | nil => simp [mkDatasetConfig] at h
      | cons g gs =>
        simp only [mkDatasetConfig, Except.ok.injEq] at h
        rw [← h]
        exact ⟨rfl, rfl⟩
    · simp at h

/-- Witness for C9 at a concrete one-graph MUTAG dataset. -/
theorem train_val_same_base_witness :
    getDataset [g0] "MUTAG" =
        Except.ok ⟨⟨[g0], .identity⟩, ⟨[g0], .identity⟩, 1⟩ ∧
    (DatasetConfig.train_set ⟨⟨[g0], .identity⟩, ⟨[g0], .identity⟩, 1⟩).base = [g0] ∧
    (DatasetConfig.val_set ⟨⟨[g0], .identity⟩, ⟨[g0], .identity⟩, 1⟩).base = [g0] :=
  ⟨rfl,
   train_val_same_base [g0] "MUTAG" ⟨⟨[g0], .identity⟩, ⟨[g0], .identity⟩, 1⟩ rfl⟩

/- ------------------------------------------------------------------
The evaluation pass as a state transformer (for the frame property of
`test`).
------------------------------------------------------------------ -/

/-- Model state as far as `test` touches it: the learnable parameters
and the train/eval mode flag toggled by `self.model.train()` /
`self.model.eval()`. -/
structure ModelState where
  params : List ℚ
  training : Bool
deriving DecidableEq, Repr

/-- Runner state relevant to `train_test`/`test`: the model and the
lines of the on-disk log file. -/
structure RunnerState where
  model : ModelState
  log : List String
deriving DecidableEq, Repr

/-- `RunnerDiscriminator.test` with its effects on the runner state made
explicit: it calls `self.model.eval()` (clearing the training-mode
flag), computes the counters under `torch.no_grad()` with the scores
determined by the current parameters, and returns the accuracy triple.
It performs no backward pass, no optimizer step, and no file write. -/
def testRun (score : List ℚ → Model) (st : RunnerState) (loader : Loader) :
    RunnerState × (ℚ × ℚ × ℚ) :=
  let st1 : RunnerState := { st with model := { st.model with training := false } }
  (st1, test (score st1.model.params) loader)

/-- C8: `test` returns the accuracy triple computed from the current
parameters while leaving the model parameters and the on-disk log
exactly as they were (only the train/eval mode flag is touched). -/
theorem test_frame (score : List ℚ → Model) (st : RunnerState) (loader : Loader) :
    (testRun score st loader).1.model.params = st.model.params ∧
    (testRun score st loader).1.log = st.log ∧
    (testRun score st loader).2 = test (score st.model.params) loader :=
  ⟨rfl, rfl, rfl⟩

end RunnerDiscriminator
